import Mathlib

/-!
Shallow embedding of `src/src/SpecializedBiologicalSystems/monosynaptic.py`
(class `Monosynaptic`): default-parameter construction, override merging,
and `validate_input`.  Python dicts are modelled as insertion-ordered
association lists with `dict.update` / lookup / membership semantics;
brian2 quantities as a magnitude (ℚ) tagged with a dimension; values that
may lack a `dim` attribute (plain numbers) as a sum type.
-/

/-- Builds a rational already in normal form, so that comparisons on it
reduce in the kernel. -/
def qr (n : Int) (d : Nat) (h₁ : d ≠ 0) (h₂ : n.natAbs.Coprime d) : ℚ :=
  ⟨n, d, h₁, h₂⟩

/-- Physical dimensions used by the configuration (brian2 `second`, `volt`,
`siemens`, `farad` and plain numbers). -/
inductive Dimension where
  | time
  | voltage
  | conductance
  | capacitance
  | dimensionless
deriving DecidableEq, Repr

/-- Base SI unit name of a dimension, used when rendering messages. -/
def unitName : Dimension → String
  | .time => "second"
  | .voltage => "volt"
  | .conductance => "siemens"
  | .capacitance => "farad"
  | .dimensionless => "1"

/-- A brian2 quantity: SI magnitude tagged with its dimension. -/
structure Quantity where
  val : ℚ
  dim : Dimension
deriving DecidableEq, Repr

/-- A Python value stored in `biophysical_params`: either a brian2 quantity
(which has a `dim` attribute) or a plain number (which does not). -/
inductive PyVal where
  | qty (q : Quantity)
  | num (x : ℚ)
deriving DecidableEq, Repr

/-- Exceptions that the translated code can raise. -/
inductive PyErr where
  | keyError (key : String)
  | valueError (msg : String)
  | attributeError (msg : String)
deriving DecidableEq, Repr

section DictOps

variable {α : Type} {β : Type} [DecidableEq α]

/-- Lookup in a Python dict modelled as an association list (first match). -/
def dget : List (α × β) → α → Option β
  | [], _ => none
  | (k', v) :: t, k => if k' = k then some v else dget t k

/-- Python `key in dict`. -/
def dmem (d : List (α × β)) (k : α) : Bool :=
  (dget d k).isSome

/-- Python `d[k] = v`: replace the value at the first occurrence of `k`
in place, else append the pair at the end. -/
def dsetKey : List (α × β) → α → β → List (α × β)
  | [], k, v => [(k, v)]
  | (k', v') :: t, k, v =>
      if k' = k then (k', v) :: t else (k', v') :: dsetKey t k v

/-- Python `d.update(u)`: apply each key-value pair of `u` to `d` in order. -/
def dupdate : List (α × β) → List (α × β) → List (α × β)
  | d, [] => d
  | d, (k, v) :: u => dupdate (dsetKey d k v) u

/-- Keys of a dict, in insertion order. -/
def dkeys (d : List (α × β)) : List α :=
  d.map (fun kv => kv.1)

end DictOps

/-- Per-connection record `{"w": conductance, "p": probability}`. -/
structure ConnVal where
  w : Quantity
  p : ℚ
deriving DecidableEq, Repr

/-- Per-motoneuron initial spike-activation record. -/
structure SpikeRec where
  u0 : ℚ × ℚ
  c0 : ℚ × ℚ
  P0 : ℚ
  a0 : ℚ
deriving DecidableEq, Repr

/-- The zero-valued initial spike-activation record built in `__init__`. -/
def zeroRecord : SpikeRec :=
  ⟨(0, 0), (0, 0), 0, 0⟩

/-- The fully constructed `Monosynaptic` object: fields set by the base class
plus the fields set in `Monosynaptic.__init__`. -/
structure Monosynaptic where
  reaction_time : Quantity
  ees_recruitment_profile : List (String × List (String × ℚ))
  biophysical_params : List (String × PyVal)
  muscles_names : List String
  associated_joint : String
  fast_type_mu : Bool
  number_muscles : Nat
  neurons_population : List (String × Nat)
  connections : List ((String × String) × ConnVal)
  spindle_model : List (String × String)
  initial_potentials : List (String × PyVal)
  initial_condition_spike_activation : List (List SpikeRec)
deriving DecidableEq, Repr

/-- Modelled from the spec: the base class `BiologicalSystem.__init__` is not
under `src/`; per the spec it only provides a shared field layout (it stores
`reaction_time`, `ees_recruitment_profile`, `biophysical_params`,
`muscles_names`, `associated_joint`, `fast_type_mu` unchanged) and a
muscle-count attribute `number_muscles`, the number of supplied muscle names. -/
def baseNumberMuscles (muscles_names : List String) : Nat :=
  muscles_names.length

/-- Python pattern `x = default; if custom is not None: x.update(custom)`. -/
def mergeOpt {α β : Type} [DecidableEq α] (d : List (α × β))
    (u : Option (List (α × β))) : List (α × β) :=
  match u with
  | none => d
  | some cu => dupdate d cu

/-- Default `biophysical_params` built when the argument is `None`
(SI magnitudes: 5 ms, -70 mV, 10 nS, 0.3 nF, 0 mV, 0.5 ms, -50 mV). -/
def defaultBiophysical : List (String × PyVal) :=
  [("T_refr", PyVal.qty ⟨qr 1 200 (by decide) (by decide), Dimension.time⟩),
   ("Eleaky", PyVal.qty ⟨qr (-7) 100 (by decide) (by decide), Dimension.voltage⟩),
   ("gL", PyVal.qty ⟨qr 1 100000000 (by decide) (by decide), Dimension.conductance⟩),
   ("Cm", PyVal.qty ⟨qr 3 10000000000 (by decide) (by decide), Dimension.capacitance⟩),
   ("E_ex", PyVal.qty ⟨0, Dimension.voltage⟩),
   ("tau_e", PyVal.qty ⟨qr 1 2000 (by decide) (by decide), Dimension.time⟩),
   ("threshold_v", PyVal.qty ⟨qr (-1) 20 (by decide) (by decide), Dimension.voltage⟩)]

/-- Normalized current 0.3 as an already-reduced rational. -/
def q310 : ℚ := qr 3 10 (by decide) (by decide)

/-- Normalized current 0.7 as an already-reduced rational. -/
def q710 : ℚ := qr 7 10 (by decide) (by decide)

/-- Normalized current 0.9 as an already-reduced rational. -/
def q910 : ℚ := qr 9 10 (by decide) (by decide)

/-- Default `ees_recruitment_profile` built when the argument is `None`. -/
def defaultEES : List (String × List (String × ℚ)) :=
  [("Ia", [("threshold_10pct", q310), ("saturation_90pct", q710)]),
   ("MN", [("threshold_10pct", q710), ("saturation_90pct", q910)])]

/-- Default neuron populations. -/
def defaultNeurons : List (String × Nat) :=
  [("Ia", 410), ("MN", 500)]

/-- Default connections: `(Ia, MN)` with weight 2.1 nS and probability 0.7. -/
def defaultConnections : List ((String × String) × ConnVal) :=
  [(("Ia", "MN"),
    ⟨⟨qr 21 10000000000 (by decide) (by decide), Dimension.conductance⟩, q710⟩)]

/-- Default spindle model equation for `Ia`. -/
def defaultSpindle : List (String × String) :=
  [("Ia", "10+ 2*stretch + 4.3*sign(stretch_velocity)*abs(stretch_velocity)**0.6")]

/-- Default `reaction_time` argument, 25 ms. -/
def rt0 : Quantity :=
  ⟨qr 1 40 (by decide) (by decide), Dimension.time⟩

/-- Translation of `Monosynaptic.__init__` up to (but excluding) the final
`self.validate_input()` call: default construction and override merging.
The `dget` on `"Eleaky"` models the unconditional
`self.biophysical_params[Eleaky]` read (a `KeyError` when absent), and the
`dget` on `"MN"` models `self.neurons_population[MN]` in the default
initial-activation comprehension, which Python evaluates even when a custom
value is supplied. -/
def buildConfig (reaction_time : Quantity)
    (biophysical_params : Option (List (String × PyVal)))
    (muscles_names : Option (List String))
    (associated_joint : String)
    (custom_neurons : Option (List (String × Nat)))
    (custom_connections : Option (List ((String × String) × ConnVal)))
    (custom_spindle : Option (List (String × String)))
    (ees_recruitment_profile : Option (List (String × List (String × ℚ))))
    (fast_type_mu : Bool)
    (custom_initial_potentials : Option (List (String × PyVal)))
    (custom_initial_condition_spike_activation : Option (List (List SpikeRec))) :
    Except PyErr Monosynaptic :=
  let muscles := muscles_names.getD ["soleus_r"]
  let bp := biophysical_params.getD defaultBiophysical
  let ees := ees_recruitment_profile.getD defaultEES
  let neurons := mergeOpt defaultNeurons custom_neurons
  let conns := mergeOpt defaultConnections custom_connections
  let spindle := mergeOpt defaultSpindle custom_spindle
  match dget bp ("Eleaky") with
  | none => Except.error (PyErr.keyError ("Eleaky"))
  | some eleaky =>
    let initPot := custom_initial_potentials.getD [("MN", eleaky)]
    match dget neurons ("MN") with
    | none => Except.error (PyErr.keyError ("MN"))
    | some nMN =>
      let icsa := custom_initial_condition_spike_activation.getD
        [List.replicate nMN zeroRecord]
      Except.ok ⟨reaction_time, ees, bp, muscles, associated_joint, fast_type_mu,
        baseNumberMuscles muscles, neurons, conns, spindle, initPot, icsa⟩

/-- Wraps a string in single quotes, as Python f-strings do. -/
def quoted (s : String) : String :=
  "\x27" ++ s ++ "\x27"

/-- Renders a list of strings like a Python set of strings. -/
def pySetRepr (l : List String) : String :=
  "\x7b" ++ String.intercalate (", ") (l.map quoted) ++ "\x7d"

/-- Renders a rational for inclusion in a message. -/
def ratStr (x : ℚ) : String :=
  toString x.num ++ "/" ++ toString x.den

/-- Muscle-count rule: `self.number_muscles != 1`. -/
def muscleCountErrors (m : Monosynaptic) : List String :=
  if m.number_muscles ≠ 1 then
    ["Monosynaptic reflex should have exactly 1 muscle"]
  else []

/-- Required neuron types missing from the population, in `{Ia, MN}` order. -/
def missingNeuronsList (m : Monosynaptic) : List String :=
  ["Ia", "MN"].filter (fun k => !(dmem m.neurons_population k))

/-- Required-neuron rule: `required_neurons - defined_neurons` nonempty. -/
def missingNeuronErrors (m : Monosynaptic) : List String :=
  if missingNeuronsList m ≠ [] then
    ["Missing required neuron types for monosynaptic reflex: " ++
      pySetRepr (missingNeuronsList m)]
  else []

/-- Defined neuron-type labels that are not `Ia` or `MN`. -/
def unexpectedNeuronsList (m : Monosynaptic) : List String :=
  (dkeys m.neurons_population).eraseDups.filter
    (fun k => !((k == "Ia") || (k == "MN")))

/-- Unexpected-neuron rule (warning bucket). -/
def unexpectedNeuronWarnings (m : Monosynaptic) : List String :=
  if unexpectedNeuronsList m ≠ [] then
    ["Unexpected neuron types for monosynaptic reflex: " ++
      pySetRepr (unexpectedNeuronsList m)]
  else []

/-- Required-connection rule: `(Ia, MN)` must be a connection key. -/
def missingConnectionErrors (m : Monosynaptic) : List String :=
  if !(dmem m.connections ("Ia", "MN")) then
    ["Missing required connections for monosynaptic reflex: " ++
      "\x7b(\x27Ia\x27, \x27MN\x27)\x7d"]
  else []

/-- Spindle rule: an `Ia` equation must be present. -/
def spindleModelErrors (m : Monosynaptic) : List String :=
  if !(dmem m.spindle_model ("Ia")) then
    ["Missing Ia equation in spindle model for monosynaptic reflex"]
  else []

/-- EES type-level completeness rule: `Ia` and `MN` entries must exist. -/
def eesPresenceErrors (m : Monosynaptic) : List String :=
  (["Ia", "MN"].filter (fun nt => !(dmem m.ees_recruitment_profile nt))).map
    (fun nt => "Missing EES recruitment parameters for neuron type " ++ quoted nt)

/-- Inhibitory-parameter rule (warning bucket). -/
def inhibitoryWarnings (m : Monosynaptic) : List String :=
  if dmem m.biophysical_params ("E_inh") || dmem m.biophysical_params ("tau_i") then
    ["Inhibitory parameters present but no inhibitory neurons in monosynaptic reflex"]
  else []

/-- The seven mandatory biophysical parameter names, in source order. -/
def requiredParams : List String :=
  ["T_refr", "Eleaky", "gL", "Cm", "E_ex", "tau_e", "threshold_v"]

/-- Mandatory-key rule: one message per missing required parameter. -/
def mandatoryParamErrors (m : Monosynaptic) : List String :=
  (requiredParams.filter (fun p => !(dmem m.biophysical_params p))).map
    (fun p => "Missing mandatory biophysical parameter: " ++ quoted p)

/-- Expected dimension of each biophysical parameter (`expected_units`). -/
def expected_units : List (String × Dimension) :=
  [("T_refr", Dimension.time),
   ("Eleaky", Dimension.voltage),
   ("gL", Dimension.conductance),
   ("Cm", Dimension.capacitance),
   ("E_ex", Dimension.voltage),
   ("tau_e", Dimension.time),
   ("threshold_v", Dimension.voltage)]

/-- Message for a dimension mismatch on parameter `param`. -/
def dimMsg (param : String) (expected : Dimension) (q : Quantity) : String :=
  "Parameter " ++ quoted param ++ " has incorrect unit. " ++
    "Expected unit compatible with " ++ unitName expected ++
    ", but got " ++ unitName q.dim

/-- Translation of the unit-check loop: iterates over `expected_units`; for a
present parameter reads `value.dim`, which raises `AttributeError` on a plain
number; otherwise collects a message when the dimensions differ. -/
def dimErrorsExcAux (bp : List (String × PyVal)) :
    List (String × Dimension) → Except PyErr (List String)
  | [] => Except.ok []
  | (param, expected) :: rest =>
    match dget bp param with
    | none => dimErrorsExcAux bp rest
    | some (PyVal.num _) =>
        Except.error (PyErr.attributeError
          (quoted ("int") ++ " object has no attribute " ++ quoted ("dim")))
    | some (PyVal.qty q) =>
        match dimErrorsExcAux bp rest with
        | Except.error e => Except.error e
        | Except.ok l =>
            Except.ok ((if q.dim = expected then [] else [dimMsg param expected q]) ++ l)

/-- The unit-check loop over the full `expected_units` table. -/
def dimErrorsExc (bp : List (String × PyVal)) : Except PyErr (List String) :=
  dimErrorsExcAux bp expected_units

/-- The messages the unit check collects when every present expected value
carries a dimension (the exception-free reading of the same loop). -/
def dimErrorsPureAux (bp : List (String × PyVal)) :
    List (String × Dimension) → List String
  | [] => []
  | (param, expected) :: rest =>
    (match dget bp param with
     | some (PyVal.qty q) => if q.dim = expected then [] else [dimMsg param expected q]
     | _ => []) ++ dimErrorsPureAux bp rest

/-- Exception-free unit-check messages over the full table. -/
def dimErrorsPure (bp : List (String × PyVal)) : List String :=
  dimErrorsPureAux bp expected_units

/-- True when the value stored under the given expected key, if any, is a
dimensioned quantity (never a plain number). -/
def qtyOk (bp : List (String × PyVal)) (kv : String × Dimension) : Bool :=
  match dget bp kv.1 with
  | some (PyVal.num _) => false
  | _ => true

/-- True when every value stored under one of the seven expected biophysical
keys is a dimensioned quantity (never a plain number). -/
def allQty (bp : List (String × PyVal)) : Bool :=
  expected_units.all (qtyOk bp)

/-- Message for a missing EES sub-field. -/
def eesMissingMsg (p nt : String) : String :=
  "Missing " ++ quoted p ++ " in EES recruitment parameters for " ++ quoted nt

/-- Message for an out-of-range EES sub-field pair. -/
def eesRangeMsg (nt : String) (t s : ℚ) : String :=
  "EES parameters for " ++ quoted nt ++ " must be between 0 and 1. " ++
    "Got: threshold=" ++ ratStr t ++ ", saturation=" ++ ratStr s

/-- Message for a misordered EES sub-field pair. -/
def eesOrderMsg (nt : String) : String :=
  "Threshold must be less than saturation for " ++ quoted nt

/-- Translation of the body of the EES parameter loop for one profile entry:
sub-field completeness, then (only when both sub-fields are present) the
range check and the ordering check. -/
def eesEntryErrors (nt : String) (ps : List (String × ℚ)) : List String :=
  if nt = "Ia" ∨ nt = "MN" then
    ((["threshold_10pct", "saturation_90pct"].filter (fun p => !(dmem ps p))).map
      (fun p => eesMissingMsg p nt))
    ++
    (match dget ps ("threshold_10pct"), dget ps ("saturation_90pct") with
     | some t, some s =>
        (if ¬(0 ≤ t ∧ t ≤ 1) ∨ ¬(0 ≤ s ∧ s ≤ 1) then [eesRangeMsg nt t s] else [])
        ++ (if t ≥ s then [eesOrderMsg nt] else [])
     | _, _ => [])
  else []

/-- The EES parameter loop over the whole recruitment profile. -/
def eesDetailErrors (profile : List (String × List (String × ℚ))) : List String :=
  (profile.map (fun kv => eesEntryErrors kv.1 kv.2)).flatten

/-- All error messages `validate_input` collects, grouped rule by rule in the
order the source appends them (assuming no attribute-error abort). -/
def collectErrors (m : Monosynaptic) : List String :=
  muscleCountErrors m ++ missingNeuronErrors m ++ missingConnectionErrors m ++
    spindleModelErrors m ++ eesPresenceErrors m ++ mandatoryParamErrors m ++
    dimErrorsPure m.biophysical_params ++ eesDetailErrors m.ees_recruitment_profile

/-- All warning messages `validate_input` collects. -/
def collectWarnings (m : Monosynaptic) : List String :=
  unexpectedNeuronWarnings m ++ inhibitoryWarnings m

/-- Translation of `Monosynaptic.validate_input`: collects errors and warnings
in source order, raises a `ValueError` joining all errors when any exist,
otherwise returns `True` with the warnings that get printed and the
(unchanged) object state. -/
def validate_input (m : Monosynaptic) :
    Except PyErr (Bool × List String × Monosynaptic) :=
  let errs1 := muscleCountErrors m
  let errs2 := errs1 ++ missingNeuronErrors m
  let warns1 := unexpectedNeuronWarnings m
  let errs3 := errs2 ++ missingConnectionErrors m
  let errs4 := errs3 ++ spindleModelErrors m
  let errs5 := errs4 ++ eesPresenceErrors m
  let warns2 := warns1 ++ inhibitoryWarnings m
  let errs6 := errs5 ++ mandatoryParamErrors m
  match dimErrorsExc m.biophysical_params with
  | Except.error e => Except.error e
  | Except.ok dErrs =>
    let errs7 := errs6 ++ dErrs
    let errs8 := errs7 ++ eesDetailErrors m.ees_recruitment_profile
    if errs8 ≠ [] then
      Except.error (PyErr.valueError
        ("Monosynaptic configuration errors:\n" ++ String.intercalate ("\n") errs8))
    else
      Except.ok (true, warns2, m)

/-- The full constructor: build the merged configuration, then validate it.
On success it returns the object together with the warnings printed. -/
def createMonosynaptic (reaction_time : Quantity)
    (biophysical_params : Option (List (String × PyVal)))
    (muscles_names : Option (List String))
    (associated_joint : String)
    (custom_neurons : Option (List (String × Nat)))
    (custom_connections : Option (List ((String × String) × ConnVal)))
    (custom_spindle : Option (List (String × String)))
    (ees_recruitment_profile : Option (List (String × List (String × ℚ))))
    (fast_type_mu : Bool)
    (custom_initial_potentials : Option (List (String × PyVal)))
    (custom_initial_condition_spike_activation : Option (List (List SpikeRec))) :
    Except PyErr (Monosynaptic × List String) :=
  match buildConfig reaction_time biophysical_params muscles_names associated_joint
      custom_neurons custom_connections custom_spindle ees_recruitment_profile
      fast_type_mu custom_initial_potentials
      custom_initial_condition_spike_activation with
  | Except.error e => Except.error e
  | Except.ok m =>
    match validate_input m with
    | Except.error e => Except.error e
    | Except.ok (_, w, m') => Except.ok (m', w)

/-- The default initial potentials, `{"MN": Eleaky}`. -/
def defaultInitPot : List (String × PyVal) :=
  [("MN", PyVal.qty ⟨qr (-7) 100 (by decide) (by decide), Dimension.voltage⟩)]

/-- The configuration produced by an all-defaults construction. -/
def cfgDefault : Monosynaptic :=
  ⟨rt0, defaultEES, defaultBiophysical, ["soleus_r"], "ankle_angle_r", true, 1,
    defaultNeurons, defaultConnections, defaultSpindle, defaultInitPot,
    [List.replicate 500 zeroRecord]⟩

/-- A throwaway configuration value, used only as the fallback of `getOkM`. -/
def emptyMono : Monosynaptic :=
  ⟨⟨0, Dimension.time⟩, [], [], [], "", true, 0, [], [], [], [], []⟩

/-- Extracts the object from a successful construction. -/
def getOkM (e : Except PyErr Monosynaptic) : Monosynaptic :=
  match e with
  | Except.ok m => m
  | Except.error _ => emptyMono

/-- Rational 3/2, an out-of-range normalized current. -/
def q32 : ℚ := qr 3 2 (by decide) (by decide)

/-- Rational 5. -/
def q5 : ℚ := qr 5 1 (by decide) (by decide)

/-- `biophysical_params` where `T_refr` holds a voltage-dimensioned quantity. -/
def bpBadTrefr : List (String × PyVal) :=
  dsetKey defaultBiophysical ("T_refr") (PyVal.qty ⟨q5, Dimension.voltage⟩)

/-- `biophysical_params` where `T_refr` holds a plain dimensionless number. -/
def bpNumTrefr : List (String × PyVal) :=
  dsetKey defaultBiophysical ("T_refr") (PyVal.num q5)

/-- Otherwise-default configuration whose `T_refr` carries a voltage. -/
def cfgBadTrefr : Monosynaptic :=
  ⟨rt0, defaultEES, bpBadTrefr, ["soleus_r"], "ankle_angle_r", true, 1,
    defaultNeurons, defaultConnections, defaultSpindle, defaultInitPot,
    [List.replicate 500 zeroRecord]⟩

/-- Otherwise-default configuration whose `T_refr` is a plain number. -/
def cfgNumTrefr : Monosynaptic :=
  ⟨rt0, defaultEES, bpNumTrefr, ["soleus_r"], "ankle_angle_r", true, 1,
    defaultNeurons, defaultConnections, defaultSpindle, defaultInitPot,
    [List.replicate 500 zeroRecord]⟩

/-- Otherwise-default configuration with two muscle names. -/
def cfgTwoMuscles : Monosynaptic :=
  ⟨rt0, defaultEES, defaultBiophysical, ["soleus_r", "tibialis_r"],
    "ankle_angle_r", true, 2, defaultNeurons, defaultConnections, defaultSpindle,
    defaultInitPot, [List.replicate 500 zeroRecord]⟩

/-- EES profile whose `Ia` entry has an out-of-range threshold and no
saturation sub-field. -/
def eesIaHalfOnly : List (String × List (String × ℚ)) :=
  [("Ia", [("threshold_10pct", q32)]),
   ("MN", [("threshold_10pct", q710), ("saturation_90pct", q910)])]

/-- Otherwise-default configuration with profile `eesIaHalfOnly`. -/
def cfgEesMissingSat : Monosynaptic :=
  ⟨rt0, eesIaHalfOnly, defaultBiophysical, ["soleus_r"], "ankle_angle_r", true, 1,
    defaultNeurons, defaultConnections, defaultSpindle, defaultInitPot,
    [List.replicate 500 zeroRecord]⟩

/-- EES profile whose `Ia` entry has both sub-fields, with the threshold
out of range. -/
def eesIaBadRange : List (String × List (String × ℚ)) :=
  [("Ia", [("threshold_10pct", q32), ("saturation_90pct", q710)]),
   ("MN", [("threshold_10pct", q710), ("saturation_90pct", q910)])]

/-- Otherwise-default configuration with profile `eesIaBadRange`. -/
def cfgEesBadRange : Monosynaptic :=
  ⟨rt0, eesIaBadRange, defaultBiophysical, ["soleus_r"], "ankle_angle_r", true, 1,
    defaultNeurons, defaultConnections, defaultSpindle, defaultInitPot,
    [List.replicate 500 zeroRecord]⟩

/-- A `biophysical_params` override holding only an `Eleaky` entry. -/
def bpOnlyEleaky : List (String × PyVal) :=
  [("Eleaky", PyVal.qty ⟨0, Dimension.voltage⟩)]

/-- A `biophysical_params` override holding only a `T_refr` entry (5 ms). -/
def bpOnlyTrefr : List (String × PyVal) :=
  [("T_refr", PyVal.qty ⟨qr 1 200 (by decide) (by decide), Dimension.time⟩)]

/-- An EES override holding only an `Ia` entry. -/
def eesOnlyIa : List (String × List (String × ℚ)) :=
  [("Ia", [("threshold_10pct", q310), ("saturation_90pct", q710)])]

/-- Lookup at the head key. -/
theorem dget_cons_self {α β : Type} [DecidableEq α] (t : List (α × β)) (k : α) (v : β) :
    dget ((k, v) :: t) k = some v := by
  simp [dget]

/-- Lookup skips a head pair with a different key. -/
theorem dget_cons_ne {α β : Type} [DecidableEq α] (t : List (α × β)) (k k' : α) (v : β)
    (h : k' ≠ k) : dget ((k', v) :: t) k = dget t k := by
  simp [dget, h]

/-- Setting a key makes it retrievable. -/
theorem dget_dsetKey_self {α β : Type} [DecidableEq α] (d : List (α × β)) (k : α) (v : β) :
    dget (dsetKey d k v) k = some v := by
  induction d with
  | nil => simp [dsetKey, dget]
  | cons kv t ih =>
      obtain ⟨k', v'⟩ := kv
      by_cases h : k' = k
      · subst h
        simp [dsetKey, dget]
      · simp [dsetKey, dget, h, ih]

/-- Setting one key leaves lookups of other keys unchanged. -/
theorem dget_dsetKey_ne {α β : Type} [DecidableEq α] (d : List (α × β)) (k k' : α) (v : β)
    (h : k' ≠ k) : dget (dsetKey d k v) k' = dget d k' := by
  have h2 : ¬(k = k') := fun hh => h hh.symm
  induction d with
  | nil => simp [dsetKey, dget, h2]
  | cons kv t ih =>
      obtain ⟨a, b⟩ := kv
      by_cases ha : a = k
      · subst ha
        simp [dsetKey, dget, h2]
      · by_cases ha' : a = k'
        · subst ha'
          simp [dsetKey, dget, ha]
        · simp [dsetKey, dget, ha, ha', ih]

/-- A key that is not among the keys of a dict cannot be looked up. -/
theorem dget_eq_none {α β : Type} [DecidableEq α] :
    ∀ (u : List (α × β)) (k : α), k ∉ dkeys u → dget u k = none := by
  intro u
  induction u with
  | nil => intro k _; rfl
  | cons kv t ih =>
      intro k h
      obtain ⟨a, b⟩ := kv
      simp only [dkeys, List.map_cons, List.mem_cons, not_or] at h
      rw [dget_cons_ne t k a b (fun hh => h.1 hh.symm)]
      exact ih k (by simpa [dkeys] using h.2)

/-- `dict.update` with a mapping that does not mention `k` leaves the lookup
of `k` unchanged. -/
theorem dget_dupdate_none {α β : Type} [DecidableEq α] (u : List (α × β)) (k : α) :
    ∀ d : List (α × β), dget u k = none → dget (dupdate d u) k = dget d k := by
  induction u with
  | nil => intro d _; rfl
  | cons kv u ih =>
      intro d h
      obtain ⟨k0, v0⟩ := kv
      by_cases h0 : k0 = k
      · subst h0
        rw [dget_cons_self] at h
        cases h
      · rw [dget_cons_ne u k k0 v0 h0] at h
        simp only [dupdate]
        rw [ih _ h, dget_dsetKey_ne _ _ _ _ (fun hh => h0 hh.symm)]

/-- `dict.update` with a duplicate-free mapping installs each of its
key-value pairs. -/
theorem dget_dupdate_some {α β : Type} [DecidableEq α] (u : List (α × β)) (k : α) (v : β) :
    ∀ d : List (α × β), (dkeys u).Nodup → dget u k = some v →
      dget (dupdate d u) k = some v := by
  induction u with
  | nil => intro d _ h; cases h
  | cons kv u ih =>
      intro d hnd h
      obtain ⟨k0, v0⟩ := kv
      simp only [dkeys, List.map_cons, List.nodup_cons] at hnd
      by_cases h0 : k0 = k
      · subst h0
        rw [dget_cons_self, Option.some.injEq] at h
        subst h
        simp only [dupdate]
        rw [dget_dupdate_none u k0 _ (dget_eq_none u k0 (by simpa [dkeys] using hnd.1))]
        exact dget_dsetKey_self d k0 v0
      · rw [dget_cons_ne u k k0 v0 h0] at h
        simp only [dupdate]
        exact ih (dsetKey d k0 v0) (by simpa [dkeys] using hnd.2) h

/-- A successful lookup exhibits a member of the association list. -/
theorem dget_mem {α β : Type} [DecidableEq α] :
    ∀ (l : List (α × β)) (k : α) (v : β), dget l k = some v → (k, v) ∈ l := by
  intro l
  induction l with
  | nil => intro k v h; cases h
  | cons kv t ih =>
      intro k v h
      obtain ⟨k', v'⟩ := kv
      by_cases h0 : k' = k
      · subst h0
        rw [dget_cons_self, Option.some.injEq] at h
        subst h
        exact List.mem_cons_self _ _
      · rw [dget_cons_ne t k k' v' h0] at h
        exact List.mem_cons_of_mem _ (ih k v h)

/-- When every present expected value carries a dimension, the unit-check
loop completes without an exception and collects exactly the pure messages. -/
theorem dimErrorsExcAux_ok (bp : List (String × PyVal)) :
    ∀ l : List (String × Dimension), l.all (qtyOk bp) = true →
      dimErrorsExcAux bp l = Except.ok (dimErrorsPureAux bp l) := by
  intro l
  induction l with
  | nil => intro _; rfl
  | cons kv rest ih =>
      intro h
      obtain ⟨param, expected⟩ := kv
      rw [List.all_cons, Bool.and_eq_true] at h
      obtain ⟨h1, h2⟩ := h
      cases hv : dget bp param with
      | none => simp [dimErrorsExcAux, dimErrorsPureAux, hv, ih h2]
      | some pv =>
          cases pv with
          | num x => simp [qtyOk, hv] at h1
          | qty q => simp [dimErrorsExcAux, dimErrorsPureAux, hv, ih h2]

/-- The unit-check loop over the full table, exception-free reading. -/
theorem dimErrorsExc_ok (bp : List (String × PyVal)) (hq : allQty bp = true) :
    dimErrorsExc bp = Except.ok (dimErrorsPure bp) :=
  dimErrorsExcAux_ok bp expected_units hq

/-- A present expected parameter with a mismatched dimension contributes its
message to the pure unit-check messages. -/
theorem dimMsg_mem_pureAux (bp : List (String × PyVal)) (param : String)
    (q : Quantity) (ed : Dimension) :
    ∀ l : List (String × Dimension), dget l param = some ed →
      dget bp param = some (PyVal.qty q) → q.dim ≠ ed →
      dimMsg param ed q ∈ dimErrorsPureAux bp l := by
  intro l
  induction l with
  | nil => intro h _ _; cases h
  | cons kv rest ih =>
      intro hl hbp hne
      obtain ⟨p0, e0⟩ := kv
      by_cases h0 : p0 = param
      · subst h0
        rw [dget_cons_self, Option.some.injEq] at hl
        subst hl
        simp [dimErrorsPureAux, hbp, hne]
      · rw [dget_cons_ne rest param p0 e0 h0] at hl
        simp only [dimErrorsPureAux]
        exact List.mem_append_right _ (ih hl hbp hne)

/-- `validate_input` in terms of the rule-by-rule error and warning lists,
assuming every present expected biophysical value carries a dimension. -/
theorem validate_input_eq (m : Monosynaptic) (hq : allQty m.biophysical_params = true) :
    validate_input m =
      if collectErrors m ≠ [] then
        Except.error (PyErr.valueError
          ("Monosynaptic configuration errors:\n" ++
            String.intercalate ("\n") (collectErrors m)))
      else Except.ok (true, collectWarnings m, m) := by
  unfold validate_input
  rw [dimErrorsExc_ok _ hq]
  rfl

/-- Field-level description of a successful `buildConfig` run: the stored
biophysical and EES dicts are the supplied ones (or the defaults when the
argument is omitted), the neuron population is the merged dict, and the
initial activation state defaults to one zero record per merged motoneuron. -/
theorem buildConfig_ok_fields (rt : Quantity)
    (bp? : Option (List (String × PyVal))) (mn? : Option (List String)) (aj : String)
    (cn? : Option (List (String × Nat)))
    (cc? : Option (List ((String × String) × ConnVal)))
    (cs? : Option (List (String × String)))
    (ees? : Option (List (String × List (String × ℚ))))
    (ftm : Bool) (cip? : Option (List (String × PyVal)))
    (icsa? : Option (List (List SpikeRec))) (cfg : Monosynaptic)
    (hb : buildConfig rt bp? mn? aj cn? cc? cs? ees? ftm cip? icsa? = Except.ok cfg) :
    cfg.biophysical_params = bp?.getD defaultBiophysical ∧
    cfg.ees_recruitment_profile = ees?.getD defaultEES ∧
    cfg.neurons_population = mergeOpt defaultNeurons cn? ∧
    ∃ n, dget cfg.neurons_population ("MN") = some n ∧
      cfg.initial_condition_spike_activation =
        icsa?.getD [List.replicate n zeroRecord] := by
  simp only [buildConfig] at hb
  split at hb
  · simp at hb
  · split at hb
    · simp at hb
    · rename_i n heq2
      rw [Except.ok.injEq] at hb
      subst hb
      exact ⟨rfl, rfl, rfl, n, heq2, rfl⟩

/-- C1 counterexample: a partial `ees_recruitment_profile` override holding
only an `Ia` entry leaves the constructed profile with no `MN` entry at all
(the default `MN` entry is not merged back in), and a partial
`biophysical_params` override holding only `T_refr` makes construction abort
with a `KeyError` on `Eleaky` instead of keeping the six other defaults. -/
theorem base_override_no_merge_counterexample :
    dget (getOkM (buildConfig rt0 none none ("ankle_angle_r") none none none
      (some eesOnlyIa) true none none)).ees_recruitment_profile ("MN") = none ∧
    createMonosynaptic rt0 (some bpOnlyTrefr) none ("ankle_angle_r") none none none
      none true none none = Except.error (PyErr.keyError ("Eleaky")) :=
  ⟨rfl, rfl⟩

/-- C1 (amended): `custom_neurons`, `custom_connections` and `custom_spindle`
merge key by key into the defaults, but a caller-supplied `biophysical_params`
or `ees_recruitment_profile` replaces the whole default mapping; the defaults
for these two fields are used only when the argument is omitted (`None`). -/
theorem base_overrides_replace_wholesale (rt : Quantity)
    (bpd : List (String × PyVal)) (eesd : List (String × List (String × ℚ)))
    (mn? : Option (List String)) (aj : String)
    (cn? : Option (List (String × Nat)))
    (cc? : Option (List ((String × String) × ConnVal)))
    (cs? : Option (List (String × String)))
    (ftm : Bool) (cip? : Option (List (String × PyVal)))
    (icsa? : Option (List (List SpikeRec))) (cfg cfg' : Monosynaptic)
    (h1 : buildConfig rt (some bpd) mn? aj cn? cc? cs? (some eesd) ftm cip? icsa?
      = Except.ok cfg)
    (h2 : buildConfig rt none mn? aj cn? cc? cs? none ftm cip? icsa?
      = Except.ok cfg') :
    (cfg.biophysical_params = bpd ∧ cfg.ees_recruitment_profile = eesd) ∧
    cfg'.biophysical_params = defaultBiophysical ∧
    cfg'.ees_recruitment_profile = defaultEES := by
  obtain ⟨hb1, he1, -, -⟩ :=
    buildConfig_ok_fields rt (some bpd) mn? aj cn? cc? cs? (some eesd) ftm cip? icsa? cfg h1
  obtain ⟨hb2, he2, -, -⟩ :=
    buildConfig_ok_fields rt none mn? aj cn? cc? cs? none ftm cip? icsa? cfg' h2
  exact ⟨⟨hb1, he1⟩, hb2, he2⟩

/-- Witness for `base_overrides_replace_wholesale` at concrete overrides. -/
theorem base_overrides_replace_wholesale_witness :
    ((getOkM (buildConfig rt0 (some bpOnlyEleaky) none ("ankle_angle_r") none none
        none (some eesOnlyIa) true none none)).biophysical_params = bpOnlyEleaky ∧
      (getOkM (buildConfig rt0 (some bpOnlyEleaky) none ("ankle_angle_r") none none
        none (some eesOnlyIa) true none none)).ees_recruitment_profile = eesOnlyIa) ∧
    (getOkM (buildConfig rt0 none none ("ankle_angle_r") none none none none true
      none none)).biophysical_params = defaultBiophysical ∧
    (getOkM (buildConfig rt0 none none ("ankle_angle_r") none none none none true
      none none)).ees_recruitment_profile = defaultEES :=
  base_overrides_replace_wholesale rt0 bpOnlyEleaky eesOnlyIa none ("ankle_angle_r")
    none none none true none none _ _ rfl rfl

/-- C2: constructing with no overrides yields exactly 410 `Ia` and 500 `MN`
neurons, exactly the one connection key `(Ia, MN)`, exactly one spindle
equation keyed `Ia`, and validation succeeds with zero collected errors and
zero collected warnings (no exception raised, nothing printed). -/
theorem default_construction_succeeds :
    createMonosynaptic rt0 none none ("ankle_angle_r") none none none none true
      none none = Except.ok (cfgDefault, []) ∧
    cfgDefault.neurons_population = [("Ia", 410), ("MN", 500)] ∧
    dkeys cfgDefault.connections = [("Ia", "MN")] ∧
    cfgDefault.spindle_model =
      [("Ia", "10+ 2*stretch + 4.3*sign(stretch_velocity)*abs(stretch_velocity)**0.6")] ∧
    collectErrors cfgDefault = [] ∧ collectWarnings cfgDefault = [] :=
  ⟨rfl, rfl, rfl, rfl, rfl, rfl⟩

/-- C3 counterexample: the default `Ia` recruitment entry has
`threshold_10pct = 0.3`, not `0.10` as the claim states. -/
theorem default_Ia_threshold_counterexample :
    dget defaultEES ("Ia") =
      some [("threshold_10pct", q310), ("saturation_90pct", q710)] ∧
    q310 ≠ qr 1 10 (by decide) (by decide) :=
  ⟨rfl, by decide⟩

/-- C3 (amended): in the default EES profile `Ia` is recruited over the
normalized-current range 0.30 to 0.70 and `MN` over 0.70 to 0.90. -/
theorem default_ees_profile_values :
    defaultEES =
      [("Ia", [("threshold_10pct", qr 3 10 (by decide) (by decide)),
        ("saturation_90pct", qr 7 10 (by decide) (by decide))]),
       ("MN", [("threshold_10pct", qr 7 10 (by decide) (by decide)),
        ("saturation_90pct", qr 9 10 (by decide) (by decide))])] :=
  rfl

/-- C4: on a configuration whose present expected biophysical values all carry
dimensions (the data model of the spec), whenever at least one error is
collected, validation raises the single `ValueError` whose message
newline-joins every collected error message; `collectErrors` is by definition
the concatenation of the findings of every rule, so none short-circuits another,
and no warning-only or silent-success outcome occurs. -/
theorem validate_reports_all_errors (m : Monosynaptic)
    (hq : allQty m.biophysical_params = true)
    (he : collectErrors m ≠ []) :
    validate_input m = Except.error (PyErr.valueError
      ("Monosynaptic configuration errors:\n" ++
        String.intercalate ("\n") (collectErrors m))) := by
  rw [validate_input_eq m hq, if_pos he]

/-- Witness for `validate_reports_all_errors` on a two-muscle configuration. -/
theorem validate_reports_all_errors_witness :
    allQty cfgTwoMuscles.biophysical_params = true ∧
    collectErrors cfgTwoMuscles ≠ [] ∧
    validate_input cfgTwoMuscles = Except.error (PyErr.valueError
      ("Monosynaptic configuration errors:\n" ++
        String.intercalate ("\n") (collectErrors cfgTwoMuscles))) :=
  ⟨by decide, by decide,
    validate_reports_all_errors cfgTwoMuscles (by decide) (by decide)⟩

/-- C5: a biophysical parameter among the seven expected keys that is present
with a dimensioned value of the wrong dimension makes validation collect an
error naming the parameter and the expected versus actual unit, and
validation (hence construction) fails with the aggregated `ValueError`. -/
theorem dim_mismatch_collected (m : Monosynaptic) (param : String)
    (q : Quantity) (ed : Dimension)
    (hq : allQty m.biophysical_params = true)
    (hexp : dget expected_units param = some ed)
    (hval : dget m.biophysical_params param = some (PyVal.qty q))
    (hdim : q.dim ≠ ed) :
    dimMsg param ed q ∈ collectErrors m ∧
    validate_input m = Except.error (PyErr.valueError
      ("Monosynaptic configuration errors:\n" ++
        String.intercalate ("\n") (collectErrors m))) := by
  have hmem : dimMsg param ed q ∈ dimErrorsPure m.biophysical_params :=
    dimMsg_mem_pureAux m.biophysical_params param q ed expected_units hexp hval hdim
  have hcol : dimMsg param ed q ∈ collectErrors m := by
    unfold collectErrors
    exact List.mem_append_left _ (List.mem_append_right _ hmem)
  have hne : collectErrors m ≠ [] := List.ne_nil_of_mem hcol
  exact ⟨hcol, by rw [validate_input_eq m hq, if_pos hne]⟩

/-- Witness for `dim_mismatch_collected`: `T_refr` carrying a voltage. -/
theorem dim_mismatch_collected_witness :
    dimMsg ("T_refr") Dimension.time ⟨q5, Dimension.voltage⟩
      ∈ collectErrors cfgBadTrefr ∧
    validate_input cfgBadTrefr = Except.error (PyErr.valueError
      ("Monosynaptic configuration errors:\n" ++
        String.intercalate ("\n") (collectErrors cfgBadTrefr))) :=
  dim_mismatch_collected cfgBadTrefr ("T_refr") ⟨q5, Dimension.voltage⟩
    Dimension.time (by decide) rfl rfl (by decide)

/-- C6 counterexample: with `saturation_90pct` absent and
`threshold_10pct = 1.5` (out of range) in the `Ia` entry, validation collects
only the missing-sub-field error — no range error is collected when the other
sub-field is absent. -/
theorem ees_range_skipped_counterexample :
    collectErrors cfgEesMissingSat = [eesMissingMsg ("saturation_90pct") ("Ia")] := by
  decide

/-- C6 (amended): the range check runs only when both sub-fields are present;
in that case, a sub-field outside `[0,1]` makes validation collect the (one
combined) range error for that entry. -/
theorem ees_range_checked_when_both_present (m : Monosynaptic) (nt : String)
    (ps : List (String × ℚ)) (t s : ℚ)
    (hp : dget m.ees_recruitment_profile nt = some ps)
    (hnt : nt = "Ia" ∨ nt = "MN")
    (ht : dget ps ("threshold_10pct") = some t)
    (hs : dget ps ("saturation_90pct") = some s)
    (hr : ¬(0 ≤ t ∧ t ≤ 1) ∨ ¬(0 ≤ s ∧ s ≤ 1)) :
    eesRangeMsg nt t s ∈ collectErrors m := by
  have hentry : eesRangeMsg nt t s ∈ eesEntryErrors nt ps := by
    simp [eesEntryErrors, hnt, ht, hs, hr]
    refine Or.inr (Or.inl ?_)
    rcases hr with hr | hr
    · exact Or.inl (fun h0 => not_le.mp (fun h1 => hr ⟨h0, h1⟩))
    · exact Or.inr (fun h0 => not_le.mp (fun h1 => hr ⟨h0, h1⟩))
  have hdet : eesRangeMsg nt t s ∈ eesDetailErrors m.ees_recruitment_profile := by
    unfold eesDetailErrors
    rw [List.mem_flatten]
    exact ⟨eesEntryErrors nt ps,
      List.mem_map_of_mem _ (dget_mem m.ees_recruitment_profile nt ps hp), hentry⟩
  unfold collectErrors
  exact List.mem_append_right _ hdet

/-- Witness for `ees_range_checked_when_both_present`: `Ia` threshold 1.5. -/
theorem ees_range_checked_witness :
    eesRangeMsg ("Ia") q32 q710 ∈ collectErrors cfgEesBadRange :=
  ees_range_checked_when_both_present cfgEesBadRange ("Ia")
    [("threshold_10pct", q32), ("saturation_90pct", q710)] q32 q710
    rfl (Or.inl rfl) rfl rfl (Or.inl (by decide))

/-- C7: a duplicate-free `custom_neurons` override that does not mention `Ia`
keeps `Ia` at its default 410 while each mentioned key takes its supplied
value — the neuron-population override merges into the defaults. -/
theorem custom_neurons_merges (cn : List (String × Nat)) (rt : Quantity)
    (bp? : Option (List (String × PyVal))) (mn? : Option (List String)) (aj : String)
    (cc? : Option (List ((String × String) × ConnVal)))
    (cs? : Option (List (String × String)))
    (ees? : Option (List (String × List (String × ℚ))))
    (ftm : Bool) (cip? : Option (List (String × PyVal)))
    (icsa? : Option (List (List SpikeRec))) (cfg : Monosynaptic)
    (hIa : dmem cn ("Ia") = false)
    (hnd : (dkeys cn).Nodup)
    (hb : buildConfig rt bp? mn? aj (some cn) cc? cs? ees? ftm cip? icsa?
      = Except.ok cfg) :
    dget cfg.neurons_population ("Ia") = some 410 ∧
    ∀ k v, dget cn k = some v → dget cfg.neurons_population k = some v := by
  obtain ⟨-, -, hnp, -⟩ :=
    buildConfig_ok_fields rt bp? mn? aj (some cn) cc? cs? ees? ftm cip? icsa? cfg hb
  have hnone : dget cn ("Ia") = none := by
    unfold dmem at hIa
    cases hgi : dget cn ("Ia") with
    | none => rfl
    | some x => rw [hgi] at hIa; cases hIa
  constructor
  · rw [hnp]
    show dget (dupdate defaultNeurons cn) ("Ia") = some 410
    rw [dget_dupdate_none cn ("Ia") defaultNeurons hnone]
    rfl
  · intro k v hkv
    rw [hnp]
    show dget (dupdate defaultNeurons cn) k = some v
    exact dget_dupdate_some cn k v defaultNeurons hnd hkv

/-- Witness for `custom_neurons_merges`: overriding only `MN` to 600. -/
theorem custom_neurons_merges_witness :
    dget (getOkM (buildConfig rt0 none none ("ankle_angle_r") (some [("MN", 600)])
      none none none true none none)).neurons_population ("Ia") = some 410 ∧
    dget (getOkM (buildConfig rt0 none none ("ankle_angle_r") (some [("MN", 600)])
      none none none true none none)).neurons_population ("MN") = some 600 :=
  ⟨(custom_neurons_merges [("MN", 600)] rt0 none none ("ankle_angle_r") none none
      none true none none _ (by decide) (by decide) rfl).1,
   (custom_neurons_merges [("MN", 600)] rt0 none none ("ankle_angle_r") none none
      none true none none _ (by decide) (by decide) rfl).2 ("MN") 600 rfl⟩

/-- C8: a successful validation returns `True` with the object unchanged in
every field, and validating the returned object again yields the same
success outcome. -/
theorem validate_idempotent_no_mutation (m m' : Monosynaptic) (b : Bool)
    (w : List String)
    (h : validate_input m = Except.ok (b, w, m')) :
    m' = m ∧ validate_input m' = Except.ok (b, w, m') ∧
    m'.neurons_population = m.neurons_population ∧
    m'.connections = m.connections ∧
    m'.spindle_model = m.spindle_model ∧
    m'.biophysical_params = m.biophysical_params ∧
    m'.ees_recruitment_profile = m.ees_recruitment_profile ∧
    m'.initial_potentials = m.initial_potentials ∧
    m'.initial_condition_spike_activation = m.initial_condition_spike_activation := by
  have h2 := h
  simp only [validate_input] at h2
  split at h2
  · cases h2
  · split at h2
    · cases h2
    · rw [Except.ok.injEq, Prod.mk.injEq, Prod.mk.injEq] at h2
      obtain ⟨hb, hw, hm⟩ := h2
      subst hb
      subst hw
      subst hm
      exact ⟨rfl, h, rfl, rfl, rfl, rfl, rfl, rfl, rfl⟩

/-- Witness for `validate_idempotent_no_mutation` on the default object. -/
theorem validate_idempotent_witness :
    cfgDefault = cfgDefault ∧
    validate_input cfgDefault = Except.ok (true, [], cfgDefault) ∧
    cfgDefault.neurons_population = cfgDefault.neurons_population ∧
    cfgDefault.connections = cfgDefault.connections ∧
    cfgDefault.spindle_model = cfgDefault.spindle_model ∧
    cfgDefault.biophysical_params = cfgDefault.biophysical_params ∧
    cfgDefault.ees_recruitment_profile = cfgDefault.ees_recruitment_profile ∧
    cfgDefault.initial_potentials = cfgDefault.initial_potentials ∧
    cfgDefault.initial_condition_spike_activation
      = cfgDefault.initial_condition_spike_activation :=
  validate_idempotent_no_mutation cfgDefault cfgDefault true [] rfl

/-- C9: when no custom initial activation state is supplied, the default one
is built after the `custom_neurons` merge: one outer list whose single
element holds exactly one zero-valued record per merged motoneuron count. -/
theorem default_activation_sized_to_merged_MN (rt : Quantity)
    (bp? : Option (List (String × PyVal))) (mn? : Option (List String)) (aj : String)
    (cn? : Option (List (String × Nat)))
    (cc? : Option (List ((String × String) × ConnVal)))
    (cs? : Option (List (String × String)))
    (ees? : Option (List (String × List (String × ℚ))))
    (ftm : Bool) (cip? : Option (List (String × PyVal))) (cfg : Monosynaptic)
    (hb : buildConfig rt bp? mn? aj cn? cc? cs? ees? ftm cip? none = Except.ok cfg) :
    ∃ n, dget cfg.neurons_population ("MN") = some n ∧
      cfg.initial_condition_spike_activation = [List.replicate n zeroRecord] := by
  obtain ⟨-, -, -, n, hmn, hicsa⟩ :=
    buildConfig_ok_fields rt bp? mn? aj cn? cc? cs? ees? ftm cip? none cfg hb
  exact ⟨n, hmn, hicsa⟩

/-- Witness for `default_activation_sized_to_merged_MN`: overriding `MN` to 3
resizes the default activation state to 3 records. -/
theorem default_activation_sized_witness :
    dget (getOkM (buildConfig rt0 none none ("ankle_angle_r") (some [("MN", 3)])
      none none none true none none)).neurons_population ("MN") = some 3 ∧
    (getOkM (buildConfig rt0 none none ("ankle_angle_r") (some [("MN", 3)])
      none none none true none none)).initial_condition_spike_activation
      = [List.replicate 3 zeroRecord] := by
  obtain ⟨n, h1, h2⟩ :=
    default_activation_sized_to_merged_MN rt0 none none ("ankle_angle_r")
      (some [("MN", 3)]) none none none true none
      (getOkM (buildConfig rt0 none none ("ankle_angle_r") (some [("MN", 3)])
        none none none true none none)) rfl
  have h3 : dget (getOkM (buildConfig rt0 none none ("ankle_angle_r")
      (some [("MN", 3)]) none none none true none none)).neurons_population ("MN")
      = some 3 := rfl
  rw [h3] at h1
  injection h1 with h1
  subst h1
  exact ⟨h3, h2⟩

/-- C10: the unit check reads `.dim` on every present expected value, so a
plain dimensionless number under `T_refr` makes `validate_input` abort with
an `AttributeError` instead of collecting a dimension-mismatch error into the
aggregated configuration-error report. -/
theorem plain_number_aborts_validation :
    validate_input cfgNumTrefr = Except.error (PyErr.attributeError
      (quoted ("int") ++ " object has no attribute " ++ quoted ("dim"))) :=
  rfl
